import Mathlib

/-!
Verification of the hasura/gotel HTTP tracing middleware and its
header/redaction utilities against its natural-language specification.

Go strings are modelled byte-for-byte as lists of characters (`GoStr`);
Go's `len`, slicing and byte indexing become `List.length`, `take`/`drop`
and `get?`.  Fallible operations (Go runtime panics such as index out of
range) are modelled with `Option`, `none` standing for a panic.
-/

/-- Go string, modelled as its byte (character) sequence. -/
abbrev GoStr := List Char

/-- Shorthand turning a Lean string literal into a `GoStr`. -/
def str (s : String) : GoStr := s.data

/-- ASCII lower-casing of one character, as in the Go source's explicit
byte loop (add 32 to characters between A and Z). -/
def asciiLowerChar (c : Char) : Char :=
  if 'A' ≤ c ∧ c ≤ 'Z' then Char.ofNat (c.toNat + 32) else c

/-- ASCII upper-casing of one character (subtract 32 between a and z). -/
def asciiUpperChar (c : Char) : Char :=
  if 'a' ≤ c ∧ c ≤ 'z' then Char.ofNat (c.toNat - 32) else c

/-- Model of Go `strings.ToLower`, restricted to ASCII (all header names
and paths handled by the middleware are ASCII). -/
def goToLower (s : GoStr) : GoStr := s.map asciiLowerChar

/-- Model of Go `fmt.Sprintf` of a natural number in base 10. -/
def natToStr (n : Nat) : GoStr := Nat.toDigits 10 n

namespace gotel

/-- MaskString masks the string value for security (package gotel
revision): length at most 6 gives all asterisks, length 7 to 11 gives the
first byte plus asterisks, length at least 12 gives the first two bytes,
eight asterisks and the original length in parentheses. -/
def MaskString (input : GoStr) : GoStr :=
  if input.length ≤ 6 then
    List.replicate input.length '*'
  else if input.length < 12 then
    input.take 1 ++ List.replicate (input.length - 1) '*'
  else
    input.take 2 ++ List.replicate 8 '*' ++ (str "(" ++ natToStr input.length ++ str ")")

end gotel

/-- Token characters permitted in an HTTP header field name, as in Go
`net/textproto` (`validHeaderFieldByte`). -/
def validHeaderFieldChar (c : Char) : Bool :=
  (('0' ≤ c && c ≤ '9') || ('a' ≤ c && c ≤ 'z') || ('A' ≤ c && c ≤ 'Z')) ||
    ['!', '#', '$', '%', '&', Char.ofNat 39, '*', '+', '-', '.', '^', '_',
      Char.ofNat 96, '|', '~'].contains c

/-- Inner canonicalisation loop of Go `textproto.CanonicalMIMEHeaderKey`:
upper-case the first character and each character following a hyphen,
lower-case the rest. -/
def canonLoop : Bool → GoStr → GoStr
  | _, [] => []
  | upper, c :: rest =>
    let c' := if upper then asciiUpperChar c else asciiLowerChar c
    c' :: canonLoop (c' = '-') rest

/-- Model of Go `textproto.CanonicalMIMEHeaderKey`: canonicalise a header
key when it consists only of valid token characters, otherwise return it
unchanged. -/
def canonicalMIMEHeaderKey (s : GoStr) : GoStr :=
  if s.all validHeaderFieldChar then canonLoop true s else s

/-- Go `http.Header` value: an association list from header name to the
list of values (Go maps have unique keys; iteration order is modelled by
list order). -/
abbrev GoHeader := List (GoStr × List GoStr)

/-- Plain Go map assignment on a header map: replace the entry for the
key if present, otherwise append it. -/
def assocSet (h : GoHeader) (k : GoStr) (v : List GoStr) : GoHeader :=
  if h.any (fun kv => kv.1 == k) then
    h.map (fun kv => if kv.1 == k then (k, v) else kv)
  else
    h ++ [(k, v)]

/-- Model of Go `http.Header.Get`: canonicalise the key, return the first
value, or the empty string when absent or empty. -/
def headerGet (h : GoHeader) (key : GoStr) : GoStr :=
  match List.lookup (canonicalMIMEHeaderKey key) h with
  | some (v :: _) => v
  | _ => []

/-- Model of Go `http.Header.Set`: store a single value under the
canonicalised key. -/
def headerSet (h : GoHeader) (key : GoStr) (value : GoStr) : GoHeader :=
  assocSet h (canonicalMIMEHeaderKey key) [value]

namespace otelutils

/-- MaskString is the constant string for masking sensitive data
(package otelutils). -/
def MaskString : GoStr := str "[REDACTED]"

/-- Fixed keyword map from the trigger byte of a sensitive keyword to the
remainder of that keyword. -/
def sensitiveKeywords (c : Char) : Option GoStr :=
  if c = 'a' then some (str "uth")
  else if c = 'k' then some (str "ey")
  else if c = 's' then some (str "ecret")
  else if c = 't' then some (str "oken")
  else if c = 'p' then some (str "assword")
  else none

/-- Span attribute header names excluded when no allow-list is given:
trace-propagation headers. -/
def excludedSpanHeaderAttributes : List GoStr :=
  [str "baggage", str "traceparent", str "traceresponse", str "tracestate",
   str "x-b3-sampled", str "x-b3-spanid", str "x-b3-traceid",
   str "x-b3-parentspanid", str "x-b3-flags", str "b3"]

/-- Inner keyword-matching loop of `IsSensitiveHeader`: compare the bytes
`lower[pos], lower[pos+1], ...` against the keyword remainder.  Mirrors
the Go loop, which indexes `lowerBytes[i+j+1]` without a bounds check:
`none` models the resulting index-out-of-range runtime panic, some false
a mismatch (`break`), some true a full match. -/
def kwLoop (lower : GoStr) (pos : Nat) : GoStr → Option Bool
  | [] => some true
  | c :: rest =>
    match lower.get? pos with
    | none => none
    | some b => if b = c then kwLoop lower (pos + 1) rest else some false

/-- Outer scanning loop of `IsSensitiveHeader` over positions
`0 .. length-3`. -/
def scanSensitive (lower : GoStr) : List Nat → Option Bool
  | [] => some false
  | i :: rest =>
    match lower.get? i with
    | none => none
    | some lc =>
      match sensitiveKeywords lc with
      | none => scanSensitive lower rest
      | some kw =>
        match kwLoop lower (i + 1) kw with
        | none => none
        | some true => some true
        | some false => scanSensitive lower rest

/-- IsSensitiveHeader checks if the header name is sensitive (byte-level
algorithm from the source).  Names shorter than 3 bytes are never
sensitive; otherwise the ASCII-lower-cased bytes are scanned for a
sensitive keyword.  `none` models the Go index-out-of-range panic that
occurs when a keyword match runs past the end of the name. -/
def IsSensitiveHeader (name : GoStr) : Option Bool :=
  if name.length < 3 then some false
  else scanSensitive (goToLower name) (List.range (name.length - 2))

/-- Loop of `NewTelemetryHeaders` for a non-empty allow-list: look up each
allowed key, skip empty values, mask sensitive ones. -/
def allowedLoop (httpHeaders : GoHeader) : List GoStr → GoHeader → Option GoHeader
  | [], result => some result
  | key :: rest, result =>
    let value := headerGet httpHeaders key
    if value = [] then allowedLoop httpHeaders rest result
    else
      match IsSensitiveHeader key with
      | none => none
      | some true => allowedLoop httpHeaders rest (headerSet result (goToLower key) MaskString)
      | some false => allowedLoop httpHeaders rest (headerSet result (goToLower key) value)

/-- Loop of `NewTelemetryHeaders` for an empty allow-list: copy all
headers with at least one value, replacing the values of sensitive ones
by the redaction constant.  The key is stored by plain map assignment,
unchanged. -/
def defaultLoop : GoHeader → GoHeader → Option GoHeader
  | [], result => some result
  | (key, headers) :: rest, result =>
    if headers = [] then defaultLoop rest result
    else
      match IsSensitiveHeader key with
      | none => none
      | some true => defaultLoop rest (assocSet result key [MaskString])
      | some false => defaultLoop rest (assocSet result key headers)

/-- NewTelemetryHeaders creates a new header map with sensitive values
masked.  `none` models a Go runtime panic raised by `IsSensitiveHeader`
on one of the header names. -/
def NewTelemetryHeaders (httpHeaders : GoHeader) (allowedHeaders : List GoStr) :
    Option GoHeader :=
  if 0 < allowedHeaders.length then allowedLoop httpHeaders allowedHeaders []
  else defaultLoop httpHeaders []

/-- SetSpanHeaderAttributes sets header attributes on the otel span:
returns the list of emitted span attributes (name, string-array value) in
header iteration order. -/
def SetSpanHeaderAttributes (prefixKey : GoStr) (headers : GoHeader)
    (allowedHeaders : List GoStr) : GoHeader :=
  headers.filterMap fun kv =>
    let lowerKey := goToLower kv.1
    if (allowedHeaders.length = 0 ∧ ¬ excludedSpanHeaderAttributes.contains lowerKey)
        ∨ (0 < allowedHeaders.length ∧ allowedHeaders.contains lowerKey) then
      some (prefixKey ++ str "." ++ lowerKey, kv.2)
    else
      none

/-- IsContentTypeDebuggable checks if the content type can be debugged. -/
def IsContentTypeDebuggable (contentType : GoStr) : Bool :=
  (str "application/json").isPrefixOf contentType ||
    (str "text/").isPrefixOf contentType ||
    (str "application/xml").isPrefixOf contentType ||
    (str "multipart/form-data").isPrefixOf contentType

end otelutils

example : otelutils.IsSensitiveHeader (str "Authorization") = some true := by decide
example : otelutils.IsSensitiveHeader (str "Api-Key") = some true := by decide
example : otelutils.IsSensitiveHeader (str "Content-Type") = some false := by decide
example : otelutils.IsSensitiveHeader (str "xy") = some false := by decide
example : otelutils.IsSensitiveHeader (str "aut") = none := by decide
example : otelutils.IsSensitiveHeader (str "x-secre") = none := by decide
example : otelutils.IsSensitiveHeader (str "passwordless") = some true := by decide

example :
    otelutils.NewTelemetryHeaders
      [(str "Content-Type", [str "application/json"]), (str "X-Empty", [])] []
      = some [(str "Content-Type", [str "application/json"])] := by decide

example :
    otelutils.NewTelemetryHeaders
      [(str "Content-Type", [str "application/json"]),
       (str "Api-Key", [str "abcxyz"])] []
      = some [(str "Content-Type", [str "application/json"]),
              (str "Api-Key", [otelutils.MaskString])] := by decide

example : gotel.MaskString (str "abcxyz") = str "******" := by decide

/-- Index of the last occurrence of a character in a Go string (model of
`strings.LastIndex` with a one-byte pattern); `none` when absent. -/
def lastIdx (s : GoStr) (c : Char) : Option Nat :=
  match List.findIdx? (fun b => b = c) s.reverse with
  | none => none
  | some j => some (s.length - 1 - j)

/-- Index of the first occurrence of a character in a Go string (model of
`strings.IndexByte`); `none` when absent. -/
def firstIdx (s : GoStr) (c : Char) : Option Nat :=
  List.findIdx? (fun b => b = c) s

/-- Decimal digit run to a natural number; `none` when empty or
non-numeric. -/
def digitsToNat : GoStr → Option Nat
  | [] => none
  | ds => ds.foldlM (fun acc c =>
      if '0' ≤ c ∧ c ≤ '9' then some (acc * 10 + (c.toNat - '0'.toNat)) else none) 0

/-- Model of Go `strconv.Atoi`: optional sign followed by decimal digits.
64-bit overflow is not modelled (all ports in scope are small). -/
def atoi (s : GoStr) : Option Int :=
  match s with
  | '+' :: rest => (digitsToNat rest).map Int.ofNat
  | '-' :: rest => (digitsToNat rest).map (fun n => -(Int.ofNat n))
  | _ => (digitsToNat s).map Int.ofNat

/-- Model of Go `net.SplitHostPort`: split "host:port" (or bracketed
forms) into host and port strings; `none` models the error return (in
which Go yields an empty host). -/
def netSplitHostPort (hostPort : GoStr) : Option (GoStr × GoStr) :=
  match lastIdx hostPort ':' with
  | none => none
  | some i =>
    if hostPort.head? = some '[' then
      match firstIdx hostPort ']' with
      | none => none
      | some endIdx =>
        if endIdx + 1 = hostPort.length then none
        else if endIdx + 1 = i then
          if (hostPort.drop 1).contains '[' || (hostPort.drop (endIdx + 1)).contains ']' then
            none
          else
            some ((hostPort.take endIdx).drop 1, hostPort.drop (i + 1))
        else none
    else
      let host := hostPort.take i
      if host.contains ':' then none
      else if hostPort.contains '[' || hostPort.contains ']' then none
      else some (host, hostPort.drop (i + 1))

/-- Result triple of `otelutils.SplitHostPort`: host, port, and whether an
error was returned. -/
structure HostPortResult where
  host : GoStr
  port : Int
  err : Bool
  deriving DecidableEq, Repr

namespace otelutils

/-- Default port for a URL scheme, as in the switch at the top of
`SplitHostPort`: 80 for http, 443 for https, otherwise -1. -/
def schemeDefaultPort (urlScheme : GoStr) : Int :=
  if urlScheme = str "http" then 80
  else if urlScheme = str "https" then 443
  else -1

/-- SplitHostPort splits a network address "hostport" into host and port,
applying the scheme default port when no port is given.  The port is
parsed with `strconv.Atoi`. -/
def SplitHostPort (hostport : GoStr) (urlScheme : GoStr) : HostPortResult :=
  let port := schemeDefaultPort urlScheme
  let fallthru : HostPortResult :=
    match netSplitHostPort hostport with
    | none => ⟨[], port, true⟩
    | some (host, pStr) =>
      match atoi pStr with
      | none => ⟨[], port, true⟩
      | some p => ⟨host, p, false⟩
  if hostport.head? = some '[' then
    match lastIdx hostport ']' with
    | none => ⟨[], port, true⟩
    | some addrEnd =>
      if ¬ (hostport.drop addrEnd).contains ':' then
        ⟨(hostport.take addrEnd).drop 1, port, false⟩
      else fallthru
  else
    if ¬ hostport.contains ':' then ⟨hostport, port, false⟩
    else fallthru

end otelutils

example : otelutils.SplitHostPort (str "[::1]:8080") (str "") = ⟨str "::1", 8080, false⟩ := by
  decide

example : otelutils.SplitHostPort (str "example.com") (str "https")
    = ⟨str "example.com", 443, false⟩ := by decide

example : otelutils.SplitHostPort (str "[::1") (str "") = ⟨[], -1, true⟩ := by decide

example : otelutils.SplitHostPort (str ":8080") (str "") = ⟨[], 8080, false⟩ := by decide

example : otelutils.SplitHostPort (str "[fe80::1%lo0]:8080") (str "")
    = ⟨str "fe80::1%lo0", 8080, false⟩ := by decide

example : otelutils.SplitHostPort (str "example.com:70000") (str "")
    = ⟨str "example.com", 70000, false⟩ := by decide

example : otelutils.SplitHostPort (str "[::1]") (str "http") = ⟨str "::1", 80, false⟩ := by
  decide

example : otelutils.SplitHostPort (str "example.com:abc") (str "") = ⟨[], -1, true⟩ := by
  decide

/-- JSON value, as produced by Go `encoding/json` for the values the
middleware serialises. -/
inductive GoJson where
  | str (s : GoStr)
  | num (n : Int)
  | obj (fields : List (GoStr × GoJson))

/-- OpenTelemetry attribute value (string or integer kinds are the only
ones the middleware emits on metrics). -/
inductive AttrValue where
  | str (s : GoStr)
  | int (n : Int)
  deriving DecidableEq, Repr

/-- OpenTelemetry attribute: key paired with a value. -/
abbrev Attr := GoStr × AttrValue

/-- slog levels used by the middleware. -/
inductive GoLogLevel where
  | debug
  | info
  | warn
  | error
  deriving DecidableEq, Repr

/-- One structured log line emitted through `logger.LogAttrs`: level,
message, and the keys of the top-level attributes. -/
structure LogEvent where
  level : GoLogLevel
  message : GoStr
  fields : List GoStr
  deriving DecidableEq, Repr

/-- Model of Go `http.StatusText` for the status codes exercised by the
middleware (unknown codes give the empty string, as in Go). -/
def goStatusText (code : Nat) : GoStr :=
  if code = 200 then str "OK"
  else if code = 201 then str "Created"
  else if code = 204 then str "No Content"
  else if code = 400 then str "Bad Request"
  else if code = 404 then str "Not Found"
  else if code = 422 then str "Unprocessable Entity"
  else if code = 500 then str "Internal Server Error"
  else str ""

namespace gotel

/-- Options of the tracing middleware after construction (immutable per
request).  `customAttrs` models the result of the optional
`CustomAttributesFunc` hook applied to the request (`none` when no hook
is configured). -/
structure TMOptions where
  highCardinalitySpans : Bool
  highCardinalityMetrics : Bool
  debugPaths : List GoStr
  allowedRequestHeaders : List GoStr
  allowedResponseHeaders : List GoStr
  customAttrs : Option (List Attr)

/-- The parts of an inbound `http.Request` the middleware reads. -/
structure GoRequest where
  method : GoStr
  urlPath : GoStr
  urlScheme : GoStr
  host : GoStr
  headers : GoHeader
  hasBody : Bool
  contentType : GoStr
  protoMajor : Nat
  protoMinor : Nat

/-- Behaviour of the downstream handler: either it returns normally (with
the status the response wrapper reports and the response headers), or it
panics with a value. -/
inductive HandlerOutcome where
  | normal (status : Nat) (respHeaders : GoHeader)
  | panics (value : GoJson)

/-- getRequestSpanName computes the span name: the bare method unless
high-cardinality spans are enabled, in which case the (slash-prefixed)
URL path is appended. -/
def getRequestSpanName (highCardinalitySpans : Bool) (method urlPath : GoStr) : GoStr :=
  if ¬ highCardinalitySpans then method
  else
    match urlPath with
    | [] => method ++ str " /"
    | c :: rest =>
      if c = '/' then method ++ str " " ++ (c :: rest)
      else method ++ str " /" ++ (c :: rest)

/-- Body of the JSON error response written on panic recovery:
`writeResponseJSON` is called with this map literal. -/
def panicBody (statusCode : Nat) (instancePath : GoStr) (cause : GoJson) : GoJson :=
  .obj [(str "status", .num statusCode),
        (str "title", .str (goStatusText statusCode)),
        (str "instance", .str instancePath),
        (str "extensions", .obj [(str "cause", cause)])]

/-- writeResponseJSON sets the Content-Type header, writes the status
code and encodes the JSON body; modelled as the written response triple
(status, content type, body). -/
def writeResponseJSON (statusCode : Nat) (body : GoJson) : Nat × GoStr × GoJson :=
  (statusCode, str "application/json", body)

/-- Output of one invocation of the `traceResponse` closure: the
decrement event on the active-requests counter, the attribute set used
for the request-duration histogram record, and the log lines emitted. -/
structure TraceRespOut where
  decrEvent : Int × List Attr
  durationAttrs : List Attr
  logs : List LogEvent

/-- Model of the `traceResponse` closure of `ServeHTTP`: decrements the
active-requests counter with the attribute set captured at increment
time, extends the metric attributes with the status code, records the
request-duration histogram, and emits the summary log line (Error level
when the status is at least 400; otherwise Info, or Debug for configured
debug paths, and only when the logger is enabled at Info level).  The two
conditional body-size histogram records are not modelled (no claim
depends on them). -/
def traceResponseModel (debugPaths : List GoStr) (urlPath : GoStr) (isInfo : Bool)
    (activeSet metricAttrs : List Attr) (statusCode : Nat) (description : GoStr)
    (hasErr : Bool) : TraceRespOut :=
  let statusCodeAttr : Attr := (str "http.response.status_code", .int statusCode)
  let metricAttrSet := metricAttrs ++ [statusCodeAttr]
  let logFields :=
    [str "latency", str "request", str "response"] ++
      (if hasErr then [str "error", str "stacktrace"] else [])
  let logs :=
    if 400 ≤ statusCode then
      [⟨.error, description, logFields⟩]
    else if ¬ isInfo then
      []
    else
      [⟨if debugPaths.contains urlPath then .debug else .info,
        goStatusText statusCode, logFields⟩]
  ⟨(-1, activeSet), metricAttrSet, logs⟩

/-- Observable effects of one `ServeHTTP` invocation.  `activeEvents`
lists the `Add` calls on the active-requests up-down counter in order;
`responseW` is the JSON response the middleware itself writes to the
original response writer (panic recovery path); `ww422Write` records that
`debugRequestBody` wrote its 422 JSON body through the wrapped writer;
`escapedPanic` is set when the middleware's own code panics at a point
not protected by the recovery deferral, so the panic escapes `ServeHTTP`. -/
structure ServeEffects where
  spanStarted : Bool
  activeEvents : List (Int × List Attr)
  durationRecords : List (List Attr)
  logEvents : List LogEvent
  responseW : Option (Nat × GoStr × GoJson)
  ww422Write : Bool
  handlerRan : Bool
  escapedPanic : Bool

/-- URL scheme the middleware uses: the request's scheme, defaulted to
"http" when empty. -/
def effectiveScheme (req : GoRequest) : GoStr :=
  if req.urlScheme = [] then str "http" else req.urlScheme

/-- The metric attribute set at the moment `attribute.NewSet` is taken
for the active-requests counter: method, scheme, server address and
port, any custom attributes from the hook, and the URL path when
high-cardinality metrics are enabled. -/
def activeAttrSet (opts : TMOptions) (req : GoRequest) : List Attr :=
  [(str "http.request.method", .str req.method),
   (str "url.scheme", .str (effectiveScheme req)),
   (str "server.address", .str req.host),
   (str "server.port", .int (otelutils.SplitHostPort req.host (effectiveScheme req)).port)]
    ++ opts.customAttrs.getD []
    ++ (if opts.highCardinalityMetrics then [(str "url.path", AttrValue.str req.urlPath)]
        else [])

/-- The metric attributes after the network-protocol-version attribute is
appended (the state `traceResponse` closes over). -/
def fullMetricAttrs (opts : TMOptions) (req : GoRequest) : List Attr :=
  activeAttrSet opts req ++
    [(str "network.protocol.version",
      .str (natToStr req.protoMajor ++ str "." ++ natToStr req.protoMinor))]

/-- Whether a span is started: skipped for configured debug paths. -/
def spanStartedFor (opts : TMOptions) (req : GoRequest) : Bool :=
  ¬ opts.debugPaths.contains (goToLower req.urlPath)

/-- Effects when `otelutils.NewTelemetryHeaders` panics on a request
header name: the panic is raised after the +1 increment and before the
recovery deferral is installed, so it escapes `ServeHTTP` with no
decrement, no log line and no response written by the middleware. -/
def escapeEffects (opts : TMOptions) (req : GoRequest) : ServeEffects :=
  ⟨spanStartedFor opts req, [(1, activeAttrSet opts req)], [], [], none, false, false, true⟩

/-- Effects of the body-read-failure path: `debugRequestBody` wrote a 422
JSON body through the wrapped writer, then `traceResponse` finalized with
422 and `ServeHTTP` returned before invoking the handler. -/
def bodyFailEffects (opts : TMOptions) (req : GoRequest) (isInfo : Bool) : ServeEffects :=
  let tr := traceResponseModel opts.debugPaths (goToLower req.urlPath) isInfo
    (activeAttrSet opts req) (fullMetricAttrs opts req) 422
    (str "failed to read request body") true
  ⟨spanStartedFor opts req, [(1, activeAttrSet opts req), tr.decrEvent],
    [tr.durationAttrs], tr.logs, none, true, false, false⟩

/-- Effects of the panic-recovery path (handler ran): `traceResponse`
finalizes with 500 and the problem-style JSON body is written to the
original response writer. -/
def panicEffects (opts : TMOptions) (req : GoRequest) (isInfo : Bool) (v : GoJson) :
    ServeEffects :=
  let tr := traceResponseModel opts.debugPaths (goToLower req.urlPath) isInfo
    (activeAttrSet opts req) (fullMetricAttrs opts req) 500
    (str "internal server error") true
  ⟨spanStartedFor opts req, [(1, activeAttrSet opts req), tr.decrEvent],
    [tr.durationAttrs], tr.logs,
    some (writeResponseJSON 500 (panicBody 500 req.urlPath v)), false, true, false⟩

/-- Effects of the normal-return path: `traceResponse` finalizes with the
status the response wrapper reports. -/
def normalEffects (opts : TMOptions) (req : GoRequest) (isInfo : Bool) (status : Nat) :
    ServeEffects :=
  let tr := traceResponseModel opts.debugPaths (goToLower req.urlPath) isInfo
    (activeAttrSet opts req) (fullMetricAttrs opts req) status
    (if 400 ≤ status then goStatusText status else str "success") false
  ⟨spanStartedFor opts req, [(1, activeAttrSet opts req), tr.decrEvent],
    [tr.durationAttrs], tr.logs, none, false, true, false⟩

/-- Model of `tracingMiddleware.ServeHTTP`.  Inputs beyond the options
and request: whether the logger is enabled at Debug and at Info level,
the result of reading the request body in the debug-capture block
(`none` models a read error; ignored when that block is skipped), and the
downstream handler's outcome.  Span attribute setting, the request-id
logger fields and the body-size histograms are not modelled; the
active-requests counter events, duration records, log lines and the
middleware's own response writes are.  A panic of `IsSensitiveHeader` on
a response header name (after the handler returned) is recovered by the
deferral like a handler panic, with the runtime error as the cause. -/
def serveHTTPModel (opts : TMOptions) (req : GoRequest) (isDebug isInfo : Bool)
    (bodyRead : Option GoStr) (outcome : HandlerOutcome) : ServeEffects :=
  match otelutils.NewTelemetryHeaders req.headers opts.allowedRequestHeaders with
  | none => escapeEffects opts req
  | some _requestLogHeaders =>
    if isDebug ∧ req.hasBody ∧ otelutils.IsContentTypeDebuggable req.contentType
        ∧ bodyRead = none then
      bodyFailEffects opts req isInfo
    else
      match outcome with
      | .panics v => panicEffects opts req isInfo v
      | .normal status respHeaders =>
        match otelutils.NewTelemetryHeaders respHeaders opts.allowedResponseHeaders with
        | none =>
          panicEffects opts req isInfo (.str (str "runtime error: index out of range"))
        | some _responseLogHeaders => normalEffects opts req isInfo status

/-- Modelled from the spec: the repository's `basicWriter` response
writer wrapper (its implementation file is absent; only `writer_test.go`
and its callers are available).  State per the spec: status code, a
header-written flag, cumulative bytes written, optional tee target and a
discard flag; the byte slices delivered to the tee target and forwarded
to the underlying transport are tracked explicitly. -/
structure basicWriter where
  wroteHeader : Bool
  code : Nat
  bytesWritten : Nat
  hasTee : Bool
  discard : Bool
  teeWrites : List GoStr
  downstreamWrites : List GoStr

/-- A fresh wrapper around the underlying transport with the given tee
and discard configuration. -/
def basicWriter.fresh (hasTee discard : Bool) : basicWriter :=
  ⟨false, 0, 0, hasTee, discard, [], []⟩

/-- Modelled from the spec: `WriteHeader` is idempotent (first call
wins); informational codes in [100,200) other than 101 pass through
without locking the status; 101 and codes at least 200 lock it. -/
def basicWriter.writeHeader (w : basicWriter) (statusCode : Nat) : basicWriter :=
  if w.wroteHeader then w
  else if 100 ≤ statusCode ∧ statusCode < 200 ∧ statusCode ≠ 101 then w
  else { w with code := statusCode, wroteHeader := true }

/-- Modelled from the spec: `Write` implicitly writes header 200 when
none was written, always adds `len(bytes)` to the byte count, delivers
the bytes to the tee target when one is set, forwards them to the
underlying transport unless `discard` is set, and returns
`(len(bytes), nil)` in all cases. -/
def basicWriter.write (w : basicWriter) (p : GoStr) : basicWriter × Nat × Option Unit :=
  let w := if ¬ w.wroteHeader then w.writeHeader 200 else w
  let w :=
    { w with
      bytesWritten := w.bytesWritten + p.length
      teeWrites := if w.hasTee then w.teeWrites ++ [p] else w.teeWrites
      downstreamWrites := if w.discard then w.downstreamWrites else w.downstreamWrites ++ [p] }
  (w, p.length, none)

/-- Run a sequence of `Write` calls, collecting the per-call returns. -/
def basicWriter.writeAll (w : basicWriter) : List GoStr → basicWriter × List (Nat × Option Unit)
  | [] => (w, [])
  | p :: ps =>
    (((w.write p).1.writeAll ps).1, (w.write p).2 :: ((w.write p).1.writeAll ps).2)

/-- Final status code passed to `traceResponse`, per exit path of
`ServeHTTP` (meaningful when the run completes, i.e. no escaped panic). -/
def finalStatusCode (opts : TMOptions) (req : GoRequest) (isDebug : Bool)
    (bodyRead : Option GoStr) (outcome : HandlerOutcome) : Nat :=
  if isDebug ∧ req.hasBody ∧ otelutils.IsContentTypeDebuggable req.contentType
      ∧ bodyRead = none then 422
  else
    match outcome with
    | .panics _ => 500
    | .normal status respHeaders =>
      if (otelutils.NewTelemetryHeaders respHeaders opts.allowedResponseHeaders).isNone
      then 500 else status

end gotel

/-- Middleware options as built by `NewTracingMiddleware` with no extra
options: the default debug paths, empty allow-lists, no hook. -/
def defaultOpts : gotel.TMOptions :=
  ⟨false, false, [str "/metrics", str "/health", str "/healthz"], [], [], none⟩

/-- A request carrying a header named "Aut", whose lower-cased name makes
`IsSensitiveHeader` read past the end of the name. -/
def poisonReq : gotel.GoRequest :=
  ⟨str "GET", str "/hello", [], str "example.com", [(str "Aut", [str "x"])],
    false, [], 1, 1⟩

/-- A plain request to /panic with ordinary headers. -/
def panicReq : gotel.GoRequest :=
  ⟨str "POST", str "/panic", [], str "example.com",
    [(str "Content-Type", [str "text/plain"])], true, str "text/plain", 1, 1⟩

/-- A plain GET request to /hello with no headers. -/
def helloReq : gotel.GoRequest :=
  ⟨str "GET", str "/hello", [], str "example.com", [], false, [], 1, 1⟩

example :
    (gotel.serveHTTPModel defaultOpts poisonReq false false none
      (.normal 200 [])).activeEvents.map Prod.fst = [1] := by decide

example :
    (gotel.serveHTTPModel defaultOpts poisonReq false false none
      (.normal 200 [])).escapedPanic = true := by decide

example :
    (gotel.serveHTTPModel defaultOpts panicReq false true none
      (.panics (.str (str "test")))).responseW
      = some (500, str "application/json",
          gotel.panicBody 500 (str "/panic") (.str (str "test"))) := rfl

example :
    (gotel.serveHTTPModel defaultOpts helloReq false true none
      (.normal 200 [])).logEvents
      = [⟨.info, str "OK", [str "latency", str "request", str "response"]⟩] := by decide

example :
    (gotel.serveHTTPModel defaultOpts helloReq false false none
      (.normal 200 [])).logEvents = [] := by decide

example :
    (gotel.serveHTTPModel defaultOpts
      ⟨str "GET", str "/healthz", [], str "example.com", [], false, [], 1, 1⟩
      false true none (.normal 200 [])).logEvents
      = [⟨.debug, str "OK", [str "latency", str "request", str "response"]⟩] := by decide

example :
    (gotel.serveHTTPModel defaultOpts
      ⟨str "GET", str "/healthz", [], str "example.com", [], false, [], 1, 1⟩
      false true none (.normal 200 [])).spanStarted = false := by decide

/-- C1: the active-requests pairing fails on the code.  For a request
carrying a header named "Aut", `ServeHTTP` increments the up-down counter
once and then panics inside `otelutils.NewTelemetryHeaders`
(`IsSensitiveHeader` reads past the end of the lower-cased name "aut")
before the recovery deferral is installed, so the paired decrement never
runs and the panic escapes the middleware: the counter receives exactly
one increment and no decrement. -/
theorem activeRequests_gauge_pairing_broken_by_header_panic :
    (gotel.serveHTTPModel defaultOpts poisonReq false false none
      (.normal 200 [])).activeEvents.map Prod.fst = [1]
    ∧ (gotel.serveHTTPModel defaultOpts poisonReq false false none
      (.normal 200 [])).escapedPanic = true := by decide

/-- C3 counterexample: for a completed request with final status 200 and
a logger not enabled at Info level, the middleware emits no summary log
line at all, refuting "exactly one structured summary log line" for every
request. -/
theorem summary_log_line_missing_when_info_disabled :
    (gotel.serveHTTPModel defaultOpts helloReq false false none
      (.normal 200 [])).escapedPanic = false
    ∧ (gotel.serveHTTPModel defaultOpts helloReq false false none
      (.normal 200 [])).logEvents.length ≠ 1 := by decide

/-- C5: with an empty allow-list, `NewTelemetryHeaders` stores each
surviving header under its original key (plain map assignment), not the
lower-cased key the claim (and the package's own test, which expects the
key "content-type") requires. -/
theorem newTelemetryHeaders_keeps_original_key_case :
    otelutils.NewTelemetryHeaders [(str "Content-Type", [str "application/json"])] []
      = some [(str "Content-Type", [str "application/json"])]
    ∧ goToLower (str "Content-Type") ≠ str "Content-Type" := by decide

/-- C7: `IsSensitiveHeader` does not return false on every keyword-free
name: on the name "aut" (length 3, containing none of auth, key, secret,
token, password) the keyword scan matches "au", "t" and then indexes one
byte past the end of the name, a Go index-out-of-range panic (modelled as
`none`) instead of the claimed false. -/
theorem isSensitiveHeader_panics_on_aut :
    otelutils.IsSensitiveHeader (str "aut") = none
    ∧ 3 ≤ (str "aut").length
    ∧ ¬ str "auth" <:+: goToLower (str "aut")
    ∧ ¬ str "key" <:+: goToLower (str "aut")
    ∧ ¬ str "secret" <:+: goToLower (str "aut")
    ∧ ¬ str "token" <:+: goToLower (str "aut")
    ∧ ¬ str "password" <:+: goToLower (str "aut") := by decide

/-- C8 counterexample: the port of "example.com:70000" is accepted as
70000 with no error, although 70000 does not fit in an unsigned 16-bit
integer; the port is parsed with `strconv.Atoi`, not as a 16-bit
unsigned integer as claimed. -/
theorem splitHostPort_accepts_port_above_uint16 :
    otelutils.SplitHostPort (str "example.com:70000") (str "")
      = ⟨str "example.com", 70000, false⟩
    ∧ ¬ (70000 : Int) < 65536 := by decide

/-- C4: `MaskString` is deterministic and length-revealing.  A value of
length at most 6 becomes that many asterisks; length 7 to 11 becomes the
first character followed by length-1 asterisks; length at least 12
becomes a 2-character prefix (within the claimed 2-3), a run of 8
asterisks (within the claimed 7-8) and the suffix "(N)" with N the
original length. -/
theorem maskString_case_analysis (s : GoStr) :
    (s.length ≤ 6 → gotel.MaskString s = List.replicate s.length '*')
    ∧ (7 ≤ s.length → s.length < 12 →
        gotel.MaskString s = s.take 1 ++ List.replicate (s.length - 1) '*')
    ∧ (12 ≤ s.length →
        gotel.MaskString s
          = s.take 2 ++ List.replicate 8 '*' ++ (str "(" ++ natToStr s.length ++ str ")")) := by
  refine ⟨fun h1 => ?_, fun h2 h3 => ?_, fun h4 => ?_⟩
  · rw [gotel.MaskString, if_pos h1]
  · rw [gotel.MaskString, if_neg (by omega), if_pos h3]
  · rw [gotel.MaskString, if_neg (by omega), if_neg (by omega)]

/-- Witness for C4 at the 13-byte input "Bearer abcdef". -/
theorem maskString_case_analysis_witness :
    12 ≤ (str "Bearer abcdef").length
    ∧ gotel.MaskString (str "Bearer abcdef")
        = (str "Bearer abcdef").take 2 ++ List.replicate 8 '*'
            ++ (str "(" ++ natToStr (str "Bearer abcdef").length ++ str ")") :=
  ⟨by decide, (maskString_case_analysis (str "Bearer abcdef")).2.2 (by decide)⟩

/-- C6: with an empty allow-list every attribute emitted by
`SetSpanHeaderAttributes` comes from a header whose lower-cased name is
outside the fixed trace-propagation exclusion set, and with a non-empty
allow-list only from headers whose lower-cased name is listed; every
emitted attribute is named prefix "." lower-cased key and carries the
header's string-array value. -/
theorem setSpanHeaderAttributes_allowlist_exclusion (prefixKey : GoStr)
    (headers : GoHeader) (allowedHeaders : List GoStr) :
    (allowedHeaders = [] →
      ∀ a ∈ otelutils.SetSpanHeaderAttributes prefixKey headers allowedHeaders,
        ∃ kv, kv ∈ headers
          ∧ otelutils.excludedSpanHeaderAttributes.contains (goToLower kv.1) = false
          ∧ a = (prefixKey ++ str "." ++ goToLower kv.1, kv.2))
    ∧ (allowedHeaders ≠ [] →
      ∀ a ∈ otelutils.SetSpanHeaderAttributes prefixKey headers allowedHeaders,
        ∃ kv, kv ∈ headers
          ∧ allowedHeaders.contains (goToLower kv.1) = true
          ∧ a = (prefixKey ++ str "." ++ goToLower kv.1, kv.2)) := by
  constructor
  · intro hempty a ha
    subst hempty
    rw [otelutils.SetSpanHeaderAttributes, List.mem_filterMap] at ha
    obtain ⟨kv, hkv, hf⟩ := ha
    by_cases hex : otelutils.excludedSpanHeaderAttributes.contains (goToLower kv.1)
    · simp only [List.length_nil, hex] at hf
      simp at hf
    · refine ⟨kv, hkv, by simpa using hex, ?_⟩
      simp only [List.length_nil, hex] at hf
      simp at hf
      rw [List.append_assoc]
      exact hf.symm
  · intro hne a ha
    have hlen : 0 < allowedHeaders.length := List.length_pos.mpr hne
    rw [otelutils.SetSpanHeaderAttributes, List.mem_filterMap] at ha
    obtain ⟨kv, hkv, hf⟩ := ha
    by_cases hmem : allowedHeaders.contains (goToLower kv.1)
    · refine ⟨kv, hkv, hmem, ?_⟩
      simp only [hmem, hlen] at hf
      simp [Nat.pos_iff_ne_zero.mp hlen] at hf
      rw [List.append_assoc]
      exact hf.symm
    · simp only [hmem] at hf
      simp [Nat.pos_iff_ne_zero.mp hlen] at hf

/-- Witness for C6: the accept header of a concrete collection survives
projection with the empty allow-list and is traced back to its header. -/
theorem setSpanHeaderAttributes_allowlist_exclusion_witness :
    ∃ kv, kv ∈ [(str "Accept", [str "application/json"]), (str "Traceparent", [str "t"])]
      ∧ otelutils.excludedSpanHeaderAttributes.contains (goToLower kv.1) = false
      ∧ ((str "http.request.header.accept", [str "application/json"]) : GoStr × List GoStr)
          = (str "http.request.header" ++ str "." ++ goToLower kv.1, kv.2) :=
  (setSpanHeaderAttributes_allowlist_exclusion (str "http.request.header")
      [(str "Accept", [str "application/json"]), (str "Traceparent", [str "t"])] []).1
    rfl (str "http.request.header.accept", [str "application/json"]) (by decide)

/-- C10: the span name is the bare method when high-cardinality spans are
disabled; when enabled it is the method, a space, and a path component
that always begins with a slash (a bare slash for the empty path, the
path itself when it starts with a slash, and a slash-prefixed copy
otherwise). -/
theorem getRequestSpanName_cases (high : Bool) (method urlPath : GoStr) :
    (high = false → gotel.getRequestSpanName high method urlPath = method)
    ∧ (high = true → urlPath = [] →
        gotel.getRequestSpanName high method urlPath = method ++ str " /")
    ∧ (high = true → ∀ c rest, urlPath = c :: rest → c = '/' →
        gotel.getRequestSpanName high method urlPath = method ++ str " " ++ urlPath)
    ∧ (high = true → ∀ c rest, urlPath = c :: rest → c ≠ '/' →
        gotel.getRequestSpanName high method urlPath = method ++ str " /" ++ urlPath)
    ∧ (high = true → ∃ rest,
        gotel.getRequestSpanName high method urlPath = method ++ (' ' :: '/' :: rest)) := by
  refine ⟨fun h => ?_, fun h he => ?_, fun h c rest he hc => ?_, fun h c rest he hc => ?_,
    fun h => ?_⟩
  · simp [gotel.getRequestSpanName, h]
  · simp [gotel.getRequestSpanName, h, he]
  · subst he hc
    simp [gotel.getRequestSpanName, h]
  · subst he
    simp [gotel.getRequestSpanName, h, hc]
  · subst h
    match hu : urlPath with
    | [] =>
      refine ⟨[], ?_⟩
      simp [gotel.getRequestSpanName, str]
    | c :: rest =>
      by_cases hc : c = '/'
      · subst hc
        refine ⟨rest, ?_⟩
        simp [gotel.getRequestSpanName, str]
      · refine ⟨c :: rest, ?_⟩
        simp [gotel.getRequestSpanName, hc, str]

/-- Witness for C10 at a concrete slash-prefixed path. -/
theorem getRequestSpanName_cases_witness :
    gotel.getRequestSpanName true (str "GET") (str "/hello")
      = str "GET" ++ str " " ++ str "/hello" :=
  (getRequestSpanName_cases true (str "GET") (str "/hello")).2.2.1 rfl '/'
    (str "hello") rfl rfl

namespace gotel

theorem basicWriter.writeHeader_fields (w : basicWriter) (c : Nat) :
    (w.writeHeader c).bytesWritten = w.bytesWritten
    ∧ (w.writeHeader c).hasTee = w.hasTee
    ∧ (w.writeHeader c).discard = w.discard
    ∧ (w.writeHeader c).teeWrites = w.teeWrites
    ∧ (w.writeHeader c).downstreamWrites = w.downstreamWrites := by
  rw [basicWriter.writeHeader]
  split
  · exact ⟨rfl, rfl, rfl, rfl, rfl⟩
  · split
    · exact ⟨rfl, rfl, rfl, rfl, rfl⟩
    · exact ⟨rfl, rfl, rfl, rfl, rfl⟩

theorem basicWriter.write_fields (w : basicWriter) (p : GoStr) :
    (w.write p).1.bytesWritten = w.bytesWritten + p.length
    ∧ (w.write p).1.hasTee = w.hasTee
    ∧ (w.write p).1.discard = w.discard
    ∧ (w.write p).1.teeWrites = (if w.hasTee then w.teeWrites ++ [p] else w.teeWrites)
    ∧ (w.write p).1.downstreamWrites
        = (if w.discard then w.downstreamWrites else w.downstreamWrites ++ [p])
    ∧ (w.write p).2 = (p.length, (none : Option Unit)) := by
  by_cases hw : w.wroteHeader <;>
    simp [basicWriter.write, basicWriter.writeHeader, hw]

theorem basicWriter.writeAll_invariant (ps : List GoStr) :
    ∀ w : basicWriter,
      (w.writeAll ps).1.bytesWritten = w.bytesWritten + (ps.map List.length).sum
      ∧ (w.writeAll ps).2 = ps.map (fun p => (p.length, (none : Option Unit)))
      ∧ (w.hasTee = true → (w.writeAll ps).1.teeWrites = w.teeWrites ++ ps)
      ∧ (w.discard = true → (w.writeAll ps).1.downstreamWrites = w.downstreamWrites) := by
  induction ps with
  | nil =>
    intro w
    simp [basicWriter.writeAll]
  | cons p ps ih =>
    intro w
    have hw := basicWriter.write_fields w p
    have hrest := ih (w.write p).1
    rw [basicWriter.writeAll]
    refine ⟨?_, ?_, ?_, ?_⟩
    · show ((w.write p).1.writeAll ps).1.bytesWritten = _
      rw [hrest.1, hw.1]
      simp
      omega
    · show (w.write p).2 :: ((w.write p).1.writeAll ps).2 = _
      rw [hrest.2.1, hw.2.2.2.2.2]
      simp
    · intro ht
      show ((w.write p).1.writeAll ps).1.teeWrites = _
      rw [hrest.2.2.1 (by rw [hw.2.1]; exact ht), hw.2.2.2.1, if_pos ht]
      simp
    · intro hd
      show ((w.write p).1.writeAll ps).1.downstreamWrites = _
      rw [hrest.2.2.2 (by rw [hw.2.2.1]; exact hd), hw.2.2.2.2.1, if_pos hd]

end gotel

/-- C9: over any sequence of `Write` calls on a fresh wrapper,
`BytesWritten` equals the sum of the lengths of all written slices
regardless of the discard flag, every call returns the slice length with
a nil error, a configured tee target receives every written slice, and
with discard set nothing is forwarded to the underlying transport. -/
theorem basicWriter_write_accounting (hasTee discard : Bool) (ps : List GoStr) :
    ((gotel.basicWriter.fresh hasTee discard).writeAll ps).1.bytesWritten
        = (ps.map List.length).sum
    ∧ ((gotel.basicWriter.fresh hasTee discard).writeAll ps).2
        = ps.map (fun p => (p.length, (none : Option Unit)))
    ∧ (hasTee = true →
        ((gotel.basicWriter.fresh hasTee discard).writeAll ps).1.teeWrites = ps)
    ∧ (discard = true →
        ((gotel.basicWriter.fresh hasTee discard).writeAll ps).1.downstreamWrites = []) := by
  have h := gotel.basicWriter.writeAll_invariant ps (gotel.basicWriter.fresh hasTee discard)
  refine ⟨?_, h.2.1, fun ht => ?_, fun hd => ?_⟩
  · rw [h.1]
    simp [gotel.basicWriter.fresh]
  · rw [h.2.2.1 ht]
    simp [gotel.basicWriter.fresh]
  · rw [h.2.2.2 hd]
    simp [gotel.basicWriter.fresh]

/-- Witness for C9: two writes with tee and discard set. -/
theorem basicWriter_write_accounting_witness :
    ((gotel.basicWriter.fresh true true).writeAll [str "test ", str "data"]).1.bytesWritten
        = ([str "test ", str "data"].map List.length).sum
    ∧ ((gotel.basicWriter.fresh true true).writeAll [str "test ", str "data"]).2
        = [str "test ", str "data"].map (fun p => (p.length, (none : Option Unit)))
    ∧ ((gotel.basicWriter.fresh true true).writeAll
        [str "test ", str "data"]).1.teeWrites = [str "test ", str "data"]
    ∧ ((gotel.basicWriter.fresh true true).writeAll
        [str "test ", str "data"]).1.downstreamWrites = [] := by
  have h := basicWriter_write_accounting true true [str "test ", str "data"]
  exact ⟨h.1, h.2.1, h.2.2.1 rfl, h.2.2.2 rfl⟩

/-- C8 amended: the spec's case analysis for `SplitHostPort` holds with
the port parsed as a decimal integer by `strconv.Atoi` (not as an
unsigned 16-bit integer): a bracketed
literal without a port yields its contents and the default; a missing
closing bracket is an error; a colon-free host yields the input and the
default; a host-and-port input yields the standard split with the
Atoi-parsed port, and an Atoi failure is an error. (Scheme defaults:
80 for http, 443 for https, -1 otherwise.) -/
theorem splitHostPort_case_analysis_amended (hostport urlScheme : GoStr) :
    (otelutils.schemeDefaultPort (str "http") = 80
      ∧ otelutils.schemeDefaultPort (str "https") = 443
      ∧ (urlScheme ≠ str "http" → urlScheme ≠ str "https" →
          otelutils.schemeDefaultPort urlScheme = -1))
    ∧ (hostport.head? = some '[' → lastIdx hostport ']' = none →
        otelutils.SplitHostPort hostport urlScheme
          = ⟨[], otelutils.schemeDefaultPort urlScheme, true⟩)
    ∧ (∀ addrEnd, hostport.head? = some '[' → lastIdx hostport ']' = some addrEnd →
        ¬ (hostport.drop addrEnd).contains ':' →
        otelutils.SplitHostPort hostport urlScheme
          = ⟨(hostport.take addrEnd).drop 1, otelutils.schemeDefaultPort urlScheme, false⟩)
    ∧ (hostport.head? ≠ some '[' → ¬ hostport.contains ':' →
        otelutils.SplitHostPort hostport urlScheme
          = ⟨hostport, otelutils.schemeDefaultPort urlScheme, false⟩)
    ∧ (∀ addrEnd host pStr n, hostport.head? = some '[' →
        lastIdx hostport ']' = some addrEnd → (hostport.drop addrEnd).contains ':' →
        netSplitHostPort hostport = some (host, pStr) → atoi pStr = some n →
        otelutils.SplitHostPort hostport urlScheme = ⟨host, n, false⟩)
    ∧ (∀ host pStr n, hostport.head? ≠ some '[' → hostport.contains ':' →
        netSplitHostPort hostport = some (host, pStr) → atoi pStr = some n →
        otelutils.SplitHostPort hostport urlScheme = ⟨host, n, false⟩)
    ∧ (∀ host pStr, hostport.head? ≠ some '[' → hostport.contains ':' →
        netSplitHostPort hostport = some (host, pStr) → atoi pStr = none →
        otelutils.SplitHostPort hostport urlScheme
          = ⟨[], otelutils.schemeDefaultPort urlScheme, true⟩) := by
  refine ⟨⟨by decide, by decide, fun h1 h2 => ?_⟩, fun hb hnone => ?_,
    fun addrEnd hb hsome hnc => ?_, fun hnb hnc => ?_,
    fun addrEnd host pStr n hb hsome hc hnet hatoi => ?_,
    fun host pStr n hnb hc hnet hatoi => ?_,
    fun host pStr hnb hc hnet hatoi => ?_⟩
  · rw [otelutils.schemeDefaultPort, if_neg h1, if_neg h2]
  · rw [otelutils.SplitHostPort, if_pos hb, hnone]
  · rw [otelutils.SplitHostPort, if_pos hb, hsome]
    simp [hnc]
    intro hmem
    exact absurd hmem (by simpa using hnc)
  · rw [otelutils.SplitHostPort, if_neg hnb, if_pos hnc]
  · rw [otelutils.SplitHostPort, if_pos hb, hsome]
    simp [hc, hnet, hatoi]
    intro hmem
    exact absurd (by simpa using hc) hmem
  · rw [otelutils.SplitHostPort, if_neg hnb]
    simp [hc, hnet, hatoi]
    intro hmem
    exact absurd (by simpa using hc) hmem
  · rw [otelutils.SplitHostPort, if_neg hnb]
    simp [hc, hnet, hatoi]
    simpa using hc

/-- Witness for C8 at the spec's end-to-end scenario inputs. -/
theorem splitHostPort_case_analysis_amended_witness :
    otelutils.SplitHostPort (str "example.com") (str "https")
      = ⟨str "example.com", otelutils.schemeDefaultPort (str "https"), false⟩
    ∧ otelutils.SplitHostPort (str "[::1") (str "")
      = ⟨[], otelutils.schemeDefaultPort (str ""), true⟩
    ∧ otelutils.SplitHostPort (str "[::1]:8080") (str "") = ⟨str "::1", 8080, false⟩
    ∧ otelutils.SplitHostPort (str ":8080") (str "") = ⟨[], 8080, false⟩ :=
  ⟨(splitHostPort_case_analysis_amended (str "example.com") (str "https")).2.2.2.1
      (by decide) (by decide),
   (splitHostPort_case_analysis_amended (str "[::1") (str "")).2.1 (by decide) (by decide),
   (splitHostPort_case_analysis_amended (str "[::1]:8080") (str "")).2.2.2.2.1 4
      (str "::1") (str "8080") 8080 (by decide) (by decide) (by decide) (by decide)
      (by decide),
   (splitHostPort_case_analysis_amended (str ":8080") (str "")).2.2.2.2.2.1
      [] (str "8080") 8080 (by decide) (by decide) (by decide) (by decide)⟩

/-- C2: whenever the downstream handler is actually invoked and panics,
`ServeHTTP` absorbs the panic (it does not escape the middleware) and
writes an HTTP 500 response with Content-Type application/json whose
JSON body carries status 500, the status title, instance equal to the
request URL path, and extensions.cause equal to the panic value. -/
theorem serveHTTP_panic_recovery_response (opts : gotel.TMOptions) (req : gotel.GoRequest)
    (isDebug isInfo : Bool) (bodyRead : Option GoStr) (v : GoJson)
    (h : (gotel.serveHTTPModel opts req isDebug isInfo bodyRead (.panics v)).handlerRan
      = true) :
    (gotel.serveHTTPModel opts req isDebug isInfo bodyRead (.panics v)).escapedPanic = false
    ∧ (gotel.serveHTTPModel opts req isDebug isInfo bodyRead (.panics v)).responseW
        = some (500, str "application/json", gotel.panicBody 500 req.urlPath v) := by
  rw [gotel.serveHTTPModel] at h ⊢
  cases hreq : otelutils.NewTelemetryHeaders req.headers opts.allowedRequestHeaders with
  | none =>
    rw [hreq] at h
    simp [gotel.escapeEffects] at h
  | some rh =>
    rw [hreq] at h
    dsimp only [] at h ⊢
    split_ifs at h ⊢ with hcond
    · simp [gotel.bodyFailEffects] at h
    · exact ⟨rfl, rfl⟩

/-- Witness for C2: a handler panicking with the value "test" on a POST
to /panic. -/
theorem serveHTTP_panic_recovery_response_witness :
    (gotel.serveHTTPModel defaultOpts panicReq false true none
        (.panics (.str (str "test")))).handlerRan = true
    ∧ ((gotel.serveHTTPModel defaultOpts panicReq false true none
          (.panics (.str (str "test")))).escapedPanic = false
      ∧ (gotel.serveHTTPModel defaultOpts panicReq false true none
          (.panics (.str (str "test")))).responseW
          = some (500, str "application/json",
              gotel.panicBody 500 panicReq.urlPath (.str (str "test")))) :=
  ⟨by decide,
   serveHTTP_panic_recovery_response defaultOpts panicReq false true none
     (.str (str "test")) (by decide)⟩

example : gotel.MaskString (str "secret-key") = str "s*********" := by decide

example :
    gotel.MaskString (str "Bearer abcdefghijkxxxxxxxxxxxxxxxxxxxxxxxxxxxxxxxxxxxxxxxxxxxxxxx")
      = str "Be********(65)" := by decide

/-- The summary log line emitted by the `traceResponse` closure: exactly
one Error-level line when the status is at least 400; below 400, exactly
one line (Debug for configured debug paths, Info otherwise) when Info
logging is enabled and none otherwise; every emitted line carries the
latency and the request and response groups. -/
theorem traceResponseModel_logs_spec (debugPaths : List GoStr) (urlPath : GoStr)
    (isInfo : Bool) (activeSet metricAttrs : List Attr) (statusCode : Nat)
    (description : GoStr) (hasErr : Bool) :
    (400 ≤ statusCode →
      (gotel.traceResponseModel debugPaths urlPath isInfo activeSet metricAttrs statusCode
        description hasErr).logs.map LogEvent.level = [GoLogLevel.error])
    ∧ (statusCode < 400 → isInfo = true →
      (gotel.traceResponseModel debugPaths urlPath isInfo activeSet metricAttrs statusCode
        description hasErr).logs.map LogEvent.level
        = [if debugPaths.contains urlPath then GoLogLevel.debug else GoLogLevel.info])
    ∧ (statusCode < 400 → isInfo = false →
      (gotel.traceResponseModel debugPaths urlPath isInfo activeSet metricAttrs statusCode
        description hasErr).logs = [])
    ∧ (∀ e ∈ (gotel.traceResponseModel debugPaths urlPath isInfo activeSet metricAttrs
        statusCode description hasErr).logs,
        str "latency" ∈ e.fields ∧ str "request" ∈ e.fields ∧ str "response" ∈ e.fields) := by
  refine ⟨fun hge => ?_, fun hlt hinfo => ?_, fun hlt hinfo => ?_, fun e he => ?_⟩
  · simp [gotel.traceResponseModel, if_pos hge]
  · rw [gotel.traceResponseModel]
    dsimp only []
    rw [if_neg (by omega), if_neg (by simp [hinfo])]
    split_ifs <;> simp
  · rw [gotel.traceResponseModel]
    dsimp only []
    rw [if_neg (by omega), if_pos (by simp [hinfo])]
  · rw [gotel.traceResponseModel] at he
    dsimp only [] at he
    split_ifs at he <;> simp at he <;> simp [he]


/-- C3 amended: per completed request the middleware emits at most one
summary log line: exactly one at Error level when the final status is at
least 400; when the status is below 400, exactly one line when the
logger is enabled at Info level (Debug level when the lower-cased path
is a configured debug path, Info otherwise) and no line when Info
logging is disabled; every emitted line carries the latency and the
request and response groups. -/
theorem summary_log_line_levels_amended (opts : gotel.TMOptions) (req : gotel.GoRequest)
    (isDebug isInfo : Bool) (bodyRead : Option GoStr) (outcome : gotel.HandlerOutcome)
    (hp : (gotel.serveHTTPModel opts req isDebug isInfo bodyRead outcome).escapedPanic
      = false) :
    (400 ≤ gotel.finalStatusCode opts req isDebug bodyRead outcome →
      (gotel.serveHTTPModel opts req isDebug isInfo bodyRead outcome).logEvents.map
        LogEvent.level = [GoLogLevel.error])
    ∧ (gotel.finalStatusCode opts req isDebug bodyRead outcome < 400 → isInfo = true →
      (gotel.serveHTTPModel opts req isDebug isInfo bodyRead outcome).logEvents.map
        LogEvent.level
        = [if opts.debugPaths.contains (goToLower req.urlPath) then GoLogLevel.debug
           else GoLogLevel.info])
    ∧ (gotel.finalStatusCode opts req isDebug bodyRead outcome < 400 → isInfo = false →
      (gotel.serveHTTPModel opts req isDebug isInfo bodyRead outcome).logEvents = [])
    ∧ (∀ e ∈ (gotel.serveHTTPModel opts req isDebug isInfo bodyRead outcome).logEvents,
        str "latency" ∈ e.fields ∧ str "request" ∈ e.fields ∧ str "response" ∈ e.fields) := by
  rw [gotel.serveHTTPModel.eq_def] at hp ⊢
  rw [gotel.finalStatusCode.eq_def]
  cases hreq : otelutils.NewTelemetryHeaders req.headers opts.allowedRequestHeaders with
  | none =>
    rw [hreq] at hp
    simp [gotel.escapeEffects] at hp
  | some rh =>
    dsimp only []
    by_cases hcond : isDebug = true ∧ req.hasBody = true
        ∧ otelutils.IsContentTypeDebuggable req.contentType = true ∧ bodyRead = none
    · rw [if_pos hcond, if_pos hcond]
      have L := traceResponseModel_logs_spec opts.debugPaths (goToLower req.urlPath) isInfo
        (gotel.activeAttrSet opts req) (gotel.fullMetricAttrs opts req) 422
        (str "failed to read request body") true
      exact ⟨fun _ => L.1 (by omega), fun hlt => absurd hlt (by omega),
        fun hlt => absurd hlt (by omega), L.2.2.2⟩
    · rw [if_neg hcond, if_neg hcond]
      cases outcome with
      | panics v =>
        dsimp only []
        have L := traceResponseModel_logs_spec opts.debugPaths (goToLower req.urlPath) isInfo
          (gotel.activeAttrSet opts req) (gotel.fullMetricAttrs opts req) 500
          (str "internal server error") true
        exact ⟨fun _ => L.1 (by omega), fun hlt => absurd hlt (by omega),
          fun hlt => absurd hlt (by omega), L.2.2.2⟩
      | normal status respHeaders =>
        dsimp only []
        cases hresp : otelutils.NewTelemetryHeaders respHeaders opts.allowedResponseHeaders with
        | none =>
          dsimp only [Option.isNone]
          rw [if_pos rfl]
          have L := traceResponseModel_logs_spec opts.debugPaths (goToLower req.urlPath)
            isInfo (gotel.activeAttrSet opts req) (gotel.fullMetricAttrs opts req) 500
            (str "internal server error") true
          exact ⟨fun _ => L.1 (by omega), fun hlt => absurd hlt (by omega),
            fun hlt => absurd hlt (by omega), L.2.2.2⟩
        | some rh2 =>
          dsimp only [Option.isNone]
          rw [if_neg (by simp)]
          have L := traceResponseModel_logs_spec opts.debugPaths (goToLower req.urlPath)
            isInfo (gotel.activeAttrSet opts req) (gotel.fullMetricAttrs opts req) status
            (if 400 ≤ status then goStatusText status else str "success") false
          exact ⟨fun hge => L.1 hge, fun hlt hinfo => L.2.1 hlt hinfo,
            fun hlt hinfo => L.2.2.1 hlt hinfo, L.2.2.2⟩

/-- Witness for C3 at a completed 404 request: one Error-level line. -/
theorem summary_log_line_levels_amended_witness :
    (gotel.serveHTTPModel defaultOpts helloReq false true none
      (.normal 404 [])).logEvents.map LogEvent.level = [GoLogLevel.error] :=
  (summary_log_line_levels_amended defaultOpts helloReq false true none
    (.normal 404 []) (by decide)).1 (by decide)
